import Mathlib

/-!
Shallow embedding of the DCF77 signal decoder of this repository
(src/DCF.cpp together with its header src/DCF.h).

The embedding covers:
* the field decoder and verifier `DcfClass::verify` (src/DCF.cpp lines 183-259),
  split here into `verifyStatus` (the returned status code) and `verifyTm`
  (the unconditional population of `DCF.currentTm`);
* the polled frame assembler `DcfClass::getTime` (src/DCF.cpp lines 59-110);
* the edge-sampling interrupt handler `dcfIsr` (src/DCF.cpp lines 147-175).

Machine integers are modelled as `Nat` with an explicit `% 256` where the
C code truncates into a `uint8_t`, and `% 2^32` for the `uint32_t`
timestamp subtraction in the interrupt handler.  The 60-entry `uint8_t
bits[DCF_BIT_COUNT]` array is modelled as a total function `Nat → Nat`;
the code only ever reads indices 0..59 of it.
-/

namespace Dcf

/-- Bit value `DCF_BIT_LOW` of `enum DcfBit_e` (src/DCF.h). -/
def DCF_BIT_LOW : Nat := 0

/-- Bit value `DCF_BIT_HIGH` of `enum DcfBit_e` (src/DCF.h). -/
def DCF_BIT_HIGH : Nat := 1

/-- Bit value `DCF_BIT_SYNC` of `enum DcfBit_e` (src/DCF.h). -/
def DCF_BIT_SYNC : Nat := 2

/-- Bit value `DCF_BIT_NONE` of `enum DcfBit_e` (src/DCF.h). -/
def DCF_BIT_NONE : Nat := 3

/-- Number of bits in a DCF77 word, `DCF_BIT_COUNT` (src/DCF.h). -/
def DCF_BIT_COUNT : Nat := 60

/-- The `struct tm` output structure `DCF.currentTm`; the fields the code
assigns are C `int`s, modelled as `Int`. -/
structure Tm where
  tm_sec   : Int
  tm_min   : Int
  tm_hour  : Int
  tm_mday  : Int
  tm_wday  : Int
  tm_mon   : Int
  tm_year  : Int
  tm_isdst : Int
deriving DecidableEq, Repr

/-- Point update of the `bits` array: `bits[i] = v`. -/
def updBits (f : Nat → Nat) (i v : Nat) : Nat → Nat :=
  fun j => if j = i then v else f j

/-- Local `uint8_t minutes` of `DcfClass::verify` (src/DCF.cpp line 186). -/
def minutesOf (b : Nat → Nat) : Nat :=
  (b 21 * 1 + b 22 * 2 + b 23 * 4 + b 24 * 8 + b 25 * 10 + b 26 * 20 + b 27 * 40) % 256

/-- Local `uint8_t hours` of `DcfClass::verify` (src/DCF.cpp line 187). -/
def hoursOf (b : Nat → Nat) : Nat :=
  (b 29 * 1 + b 30 * 2 + b 31 * 4 + b 32 * 8 + b 33 * 10 + b 34 * 20) % 256

/-- Local `uint8_t dayM` of `DcfClass::verify` (src/DCF.cpp line 188). -/
def dayMOf (b : Nat → Nat) : Nat :=
  (b 36 * 1 + b 37 * 2 + b 38 * 4 + b 39 * 8 + b 40 * 10 + b 41 * 20) % 256

/-- Local `uint8_t dayW` of `DcfClass::verify` (src/DCF.cpp line 189). -/
def dayWOf (b : Nat → Nat) : Nat :=
  (b 42 * 1 + b 43 * 2 + b 44 * 4) % 256

/-- Local `uint8_t month` of `DcfClass::verify` (src/DCF.cpp line 190). -/
def monthOf (b : Nat → Nat) : Nat :=
  (b 45 * 1 + b 46 * 2 + b 47 * 4 + b 48 * 8 + b 49 * 10) % 256

/-- Local `uint8_t year` of `DcfClass::verify` (src/DCF.cpp line 191). -/
def yearOf (b : Nat → Nat) : Nat :=
  (b 50 * 1 + b 51 * 2 + b 52 * 4 + b 53 * 8 + b 54 * 10 + b 55 * 20 +
   b 56 * 40 + b 57 * 80) % 256

/-- Sum of `n` array entries starting at index `lo`: the accumulation
pattern of the parity loops `for (i = lo; i <= hi; i++) sum += bits[i];`. -/
def sumRange (b : Nat → Nat) (lo : Nat) : Nat → Nat
  | 0 => 0
  | n + 1 => sumRange b lo n + b (lo + n)

/-- Value of the `uint8_t sum` accumulator after one parity loop of
`DcfClass::verify` over indices `lo..hi` (src/DCF.cpp lines 246-256). -/
def paritySum (b : Nat → Nat) (lo hi : Nat) : Nat :=
  sumRange b lo (hi + 1 - lo) % 256

/-- Status code returned by `DcfClass::verify` (src/DCF.cpp lines 230-258):
sanity checks first (codes 1..13), then the three parity checks
(codes 21..23), first failing check wins, 0 on success. -/
def verifyStatus (b : Nat → Nat) : Nat :=
  if b 0 ≠ 0 then 1
  else if b 20 ≠ 1 then 2
  else if b 59 ≠ 0 then 3
  else if minutesOf b > 59 then 4
  else if hoursOf b > 23 then 5
  else if dayMOf b = 0 then 6
  else if dayMOf b > 31 then 7
  else if dayWOf b = 0 then 8
  else if dayWOf b > 7 then 9
  else if monthOf b = 0 then 10
  else if monthOf b > 12 then 11
  else if yearOf b > 99 then 12
  else if b 17 = b 18 then 13
  else if paritySum b 21 28 % 2 ≠ 0 then 21
  else if paritySum b 29 35 % 2 ≠ 0 then 22
  else if paritySum b 36 58 % 2 ≠ 0 then 23
  else 0

/-- The output structure populated by `DcfClass::verify` before any check
runs (src/DCF.cpp lines 220-228): `tm_sec = 0`, `tm_wday = dayW % 7`,
`tm_mon = month - 1`, `tm_year = year + 100`, `tm_isdst = cest`. -/
def verifyTm (b : Nat → Nat) : Tm where
  tm_sec   := 0
  tm_min   := (minutesOf b : Int)
  tm_hour  := (hoursOf b : Int)
  tm_mday  := (dayMOf b : Int)
  tm_wday  := ((dayWOf b % 7 : Nat) : Int)
  tm_mon   := (monthOf b : Int) - 1
  tm_year  := (yearOf b : Int) + 100
  tm_isdst := (b 17 : Int)

/-- The whole of `DcfClass::verify`: it overwrites `DCF.currentTm` with the
decoded fields of the frame (ignoring the previous value) and returns the
status code. -/
def verify (b : Nat → Nat) (_oldTm : Tm) : Nat × Tm :=
  (verifyStatus b, verifyTm b)

/-- The mutable state of the `DcfClass` singleton `DCF` plus the fields the
interrupt handler uses (src/DCF.h lines 77-118). -/
structure DcfState where
  idx            : Nat
  bits           : Nat → Nat
  dcfBit         : Nat
  lastBit        : Nat
  lastIdx        : Nat
  currentTm      : Tm
  startEdge      : Nat
  startEdgeTs    : Nat
  rxFlag         : Nat
  lastIrqTrigger : Nat

/-- One call of `DcfClass::getTime` (src/DCF.cpp lines 59-110): the overflow
check runs first, then the sync handling, then bit storage; the return
value pairs with the successor state. -/
def getTime (s : DcfState) : Nat × DcfState :=
  if 60 ≤ s.idx then
    (31, { s with idx := 0 })
  else if s.dcfBit = DCF_BIT_SYNC then
    if s.idx = 59 then
      let b := updBits s.bits 59 DCF_BIT_LOW
      let r := verify b s.currentTm
      (r.1, { s with bits := b, dcfBit := DCF_BIT_NONE, lastBit := DCF_BIT_SYNC,
                     currentTm := r.2, idx := 0 })
    else
      (32, { s with dcfBit := DCF_BIT_NONE, lastBit := DCF_BIT_SYNC, idx := 0 })
  else if s.dcfBit = DCF_BIT_HIGH ∨ s.dcfBit = DCF_BIT_LOW then
    (33, { s with bits := updBits s.bits s.idx s.dcfBit, lastBit := s.dcfBit,
                  dcfBit := DCF_BIT_NONE, idx := s.idx + 1, lastIdx := s.idx + 1 })
  else
    (41, s)

/-- Wrapping `uint32_t` subtraction `a - b`, used for the `delta`
measurements in `dcfIsr`. -/
def u32sub (a b : Nat) : Nat :=
  (a % 4294967296 + (4294967296 - b % 4294967296)) % 4294967296

/-- One invocation of the interrupt handler `dcfIsr` (src/DCF.cpp lines
147-175), given the current `millis()` value `ts` and the pin level read
from the receiver pin. -/
def dcfIsr (s : DcfState) (ts pinValue : Nat) : DcfState :=
  if pinValue = s.startEdge then
    if u32sub ts s.startEdgeTs > 2050 then
      { s with lastIrqTrigger := pinValue, startEdgeTs := ts, rxFlag := 0 }
    else if u32sub ts s.startEdgeTs > 1950 then
      { s with lastIrqTrigger := pinValue, dcfBit := DCF_BIT_SYNC, startEdgeTs := ts, rxFlag := 0 }
    else if u32sub ts s.startEdgeTs > 1050 then
      { s with lastIrqTrigger := pinValue }
    else if u32sub ts s.startEdgeTs > 950 then
      { s with lastIrqTrigger := pinValue, startEdgeTs := ts, rxFlag := 0 }
    else
      { s with lastIrqTrigger := pinValue }
  else
    if s.rxFlag = 1 then
      { s with lastIrqTrigger := pinValue }
    else if u32sub ts s.startEdgeTs > 175 then
      { s with lastIrqTrigger := pinValue, dcfBit := DCF_BIT_HIGH, rxFlag := 1 }
    else if u32sub ts s.startEdgeTs > 50 then
      { s with lastIrqTrigger := pinValue, dcfBit := DCF_BIT_LOW, rxFlag := 1 }
    else
      { s with lastIrqTrigger := pinValue }

/-- Folding a sequence of interrupt invocations, each a pair of a
timestamp and a pin level. -/
def runIsr (s : DcfState) (es : List (Nat × Nat)) : DcfState :=
  es.foldl (fun st e => dcfIsr st e.1 e.2) s

/-- Flip of a single (0/1-valued) bit of a frame. -/
def flipBit (b : Nat → Nat) (i : Nat) : Nat → Nat :=
  fun j => if j = i then 1 - b j else b j

/-- Conjunction of the thirteen sanity checks of `DcfClass::verify`
(src/DCF.cpp lines 231-243) passing, stated on the decoded fields. -/
def sanityOk (b : Nat → Nat) : Prop :=
  b 0 = 0 ∧ b 20 = 1 ∧ b 59 = 0 ∧ minutesOf b ≤ 59 ∧ hoursOf b ≤ 23 ∧
  dayMOf b ≠ 0 ∧ dayMOf b ≤ 31 ∧ dayWOf b ≠ 0 ∧ dayWOf b ≤ 7 ∧
  monthOf b ≠ 0 ∧ monthOf b ≤ 12 ∧ yearOf b ≤ 99 ∧ b 17 ≠ b 18

instance (b : Nat → Nat) : Decidable (sanityOk b) := by
  unfold sanityOk; infer_instance

/-- Parity-failure status code of the parity group containing bit `i`:
21 for bits 21-28, 22 for bits 29-35, 23 for bits 36-58. -/
def parityCode (i : Nat) : Nat :=
  if i ≤ 28 then 21 else if i ≤ 35 then 22 else 23

/-- A fully reset decoder state: the member initializers of `DcfClass`
(src/DCF.h), with the uninitialized `bits` array and `currentTm` taken
as all zero and the start polarity as LOW (`bitStart = FALLING`). -/
def initState : DcfState where
  idx            := 0
  bits           := fun _ => 0
  dcfBit         := DCF_BIT_NONE
  lastBit        := DCF_BIT_NONE
  lastIdx        := 0
  currentTm      := ⟨0, 0, 0, 0, 0, 0, 0, 0⟩
  startEdge      := 0
  startEdgeTs    := 0
  rxFlag         := 0
  lastIrqTrigger := 0

/-- Even-parity bit over the seven minute bits (bits 21-27) of an encoded
frame, as a function of the minute value. -/
def minuteParity (mi : Nat) : Nat :=
  (mi % 10 % 2 + mi % 10 / 2 % 2 + mi % 10 / 4 % 2 + mi % 10 / 8 % 2 +
   mi / 10 % 2 + mi / 10 / 2 % 2 + mi / 10 / 4 % 2) % 2

/-- Even-parity bit over the six hour bits (bits 29-34) of an encoded
frame, as a function of the hour value. -/
def hourParity (h : Nat) : Nat :=
  (h % 10 % 2 + h % 10 / 2 % 2 + h % 10 / 4 % 2 + h % 10 / 8 % 2 +
   h / 10 % 2 + h / 10 / 2 % 2) % 2

/-- Even-parity bit over the twenty-two date bits (bits 36-57) of an
encoded frame, as a function of day-of-month, day-of-week, month and
year-of-century. -/
def dateParity (d w mo y : Nat) : Nat :=
  (d % 10 % 2 + d % 10 / 2 % 2 + d % 10 / 4 % 2 + d % 10 / 8 % 2 +
   d / 10 % 2 + d / 10 / 2 % 2 +
   w % 2 + w / 2 % 2 + w / 4 % 2 +
   mo % 10 % 2 + mo % 10 / 2 % 2 + mo % 10 / 4 % 2 + mo % 10 / 8 % 2 + mo / 10 % 2 +
   y % 10 % 2 + y % 10 / 2 % 2 + y % 10 / 4 % 2 + y % 10 / 8 % 2 +
   y / 10 % 2 + y / 10 / 2 % 2 + y / 10 / 4 % 2 + y / 10 / 8 % 2) % 2

/-- Encoding of a calendar time into a 60-bit frame with the BCD weights of
the DCF77 standard: bit 0 = 0, bit 17 = CEST flag, bit 18 = CET flag,
bit 20 = 1, BCD minute in bits 21-27 with even parity bit 28, BCD hour in
bits 29-34 with even parity bit 35, BCD day-of-month in bits 36-41, binary
day-of-week in bits 42-44, BCD month in bits 45-49, BCD year-of-century in
bits 50-57 with even parity bit 58 covering bits 36-58, bit 59 = 0 and all
remaining bits 0. -/
def encodeFrame (mi h d w mo y cest cet : Nat) : Nat → Nat := fun i =>
  if i = 17 then cest
  else if i = 18 then cet
  else if i = 20 then 1
  else if i = 21 then mi % 10 % 2
  else if i = 22 then mi % 10 / 2 % 2
  else if i = 23 then mi % 10 / 4 % 2
  else if i = 24 then mi % 10 / 8 % 2
  else if i = 25 then mi / 10 % 2
  else if i = 26 then mi / 10 / 2 % 2
  else if i = 27 then mi / 10 / 4 % 2
  else if i = 28 then minuteParity mi
  else if i = 29 then h % 10 % 2
  else if i = 30 then h % 10 / 2 % 2
  else if i = 31 then h % 10 / 4 % 2
  else if i = 32 then h % 10 / 8 % 2
  else if i = 33 then h / 10 % 2
  else if i = 34 then h / 10 / 2 % 2
  else if i = 35 then hourParity h
  else if i = 36 then d % 10 % 2
  else if i = 37 then d % 10 / 2 % 2
  else if i = 38 then d % 10 / 4 % 2
  else if i = 39 then d % 10 / 8 % 2
  else if i = 40 then d / 10 % 2
  else if i = 41 then d / 10 / 2 % 2
  else if i = 42 then w % 2
  else if i = 43 then w / 2 % 2
  else if i = 44 then w / 4 % 2
  else if i = 45 then mo % 10 % 2
  else if i = 46 then mo % 10 / 2 % 2
  else if i = 47 then mo % 10 / 4 % 2
  else if i = 48 then mo % 10 / 8 % 2
  else if i = 49 then mo / 10 % 2
  else if i = 50 then y % 10 % 2
  else if i = 51 then y % 10 / 2 % 2
  else if i = 52 then y % 10 / 4 % 2
  else if i = 53 then y % 10 / 8 % 2
  else if i = 54 then y / 10 % 2
  else if i = 55 then y / 10 / 2 % 2
  else if i = 56 then y / 10 / 4 % 2
  else if i = 57 then y / 10 / 8 % 2
  else if i = 58 then dateParity d w mo y
  else 0

/-- An all-zero output structure, the assumed prior value of `DCF.currentTm`. -/
def tmZero : Tm := ⟨0, 0, 0, 0, 0, 0, 0, 0⟩

/-- A frame failing the very first sanity check (bit 0 is 1) whose decoded
minute field (85) differs from any in-range prior value. -/
def badFrame : Nat → Nat := fun i => if i = 59 then 0 else 1

/-- Decoder state holding `badFrame` with a full frame pending (`idx = 59`,
sync symbol in the channel). -/
def exBadState : DcfState :=
  { initState with idx := 59, dcfBit := DCF_BIT_SYNC, bits := badFrame }

/-- Decoder state with a full frame pending over the all-zero bits array. -/
def exSync59 : DcfState := { initState with idx := 59, dcfBit := DCF_BIT_SYNC }

/-- Decoder state whose frame index has reached 60 with an empty channel. -/
def exOverflow : DcfState := { initState with idx := 60 }

/-- Receiver state in the middle of a second: a `Zero` symbol has already
been assigned (`rxFlag = 1`). -/
def exNoise : DcfState := { initState with rxFlag := 1, dcfBit := DCF_BIT_LOW }

lemma sumRange_congr (f g : Nat → Nat) (lo n : Nat)
    (h : ∀ k, k < n → f (lo + k) = g (lo + k)) :
    sumRange f lo n = sumRange g lo n := by
  revert h
  induction n with
  | zero => intro _; rfl
  | succ n ih =>
    intro h
    unfold sumRange
    rw [ih (fun k hk => h k (Nat.lt_succ_of_lt hk)), h n (Nat.lt_succ_self n)]

lemma sumRange_le (f : Nat → Nat) (lo n : Nat)
    (h : ∀ k, k < n → f (lo + k) ≤ 1) :
    sumRange f lo n ≤ n := by
  revert h
  induction n with
  | zero => intro _; exact Nat.le_refl 0
  | succ n ih =>
    intro h
    unfold sumRange
    have h1 := h n (Nat.lt_succ_self n)
    have h2 := ih (fun k hk => h k (Nat.lt_succ_of_lt hk))
    omega

lemma sumRange_flip (b : Nat → Nat) (i lo n : Nat)
    (h1 : lo ≤ i) (h2 : i < lo + n) :
    sumRange (flipBit b i) lo n + b i = sumRange b lo n + (1 - b i) := by
  revert h2
  induction n with
  | zero => intro h2; omega
  | succ n ih =>
    intro h2
    unfold sumRange
    by_cases hc : i = lo + n
    · have e : sumRange (flipBit b i) lo n = sumRange b lo n := by
        apply sumRange_congr
        intro k hk
        unfold flipBit
        rw [if_neg (by omega)]
      have e2 : flipBit b i (lo + n) = 1 - b (lo + n) := by
        unfold flipBit
        rw [if_pos hc.symm]
      subst hc
      rw [e, e2]
      omega
    · have e2 : flipBit b i (lo + n) = b (lo + n) := by
        unfold flipBit
        rw [if_neg (by omega)]
      have := ih (by omega)
      rw [e2]
      omega

lemma paritySum_flip_parity (b : Nat → Nat) (i lo hi : Nat)
    (hb : ∀ j, j ≤ 59 → b j ≤ 1)
    (h1 : lo ≤ i) (h2 : i ≤ hi) (h3 : hi ≤ 59) :
    paritySum (flipBit b i) lo hi % 2 = (paritySum b lo hi + 1) % 2 := by
  unfold paritySum
  have hflip := sumRange_flip b i lo (hi + 1 - lo) h1 (by omega)
  have hb1 : sumRange b lo (hi + 1 - lo) ≤ hi + 1 - lo :=
    sumRange_le _ _ _ (fun k hk => hb (lo + k) (by omega))
  have hb2 : sumRange (flipBit b i) lo (hi + 1 - lo) ≤ hi + 1 - lo := by
    apply sumRange_le
    intro k hk
    unfold flipBit
    split
    · omega
    · exact hb (lo + k) (by omega)
  have hbi : b i ≤ 1 := hb i (by omega)
  omega

lemma paritySum_flip_out (b : Nat → Nat) (i lo hi : Nat)
    (h : i < lo ∨ hi < i) :
    paritySum (flipBit b i) lo hi = paritySum b lo hi := by
  unfold paritySum
  congr 1
  apply sumRange_congr
  intro k hk
  unfold flipBit
  rw [if_neg (by omega)]

lemma verifyStatus_eq_zero_iff (b : Nat → Nat) :
    verifyStatus b = 0 ↔
      (sanityOk b ∧ paritySum b 21 28 % 2 = 0 ∧ paritySum b 29 35 % 2 = 0 ∧
       paritySum b 36 58 % 2 = 0) := by
  unfold verifyStatus sanityOk
  generalize b 0 = x0
  generalize b 20 = x20
  generalize b 59 = x59
  generalize minutesOf b = xmi
  generalize hoursOf b = xh
  generalize dayMOf b = xd
  generalize dayWOf b = xw
  generalize monthOf b = xmo
  generalize yearOf b = xy
  generalize b 17 = x17
  generalize b 18 = x18
  generalize paritySum b 21 28 % 2 = p1
  generalize paritySum b 29 35 % 2 = p2
  generalize paritySum b 36 58 % 2 = p3
  by_cases h1 : x0 ≠ 0
  · rw [if_pos h1]; omega
  rw [if_neg h1]
  by_cases h2 : x20 ≠ 1
  · rw [if_pos h2]; omega
  rw [if_neg h2]
  by_cases h3 : x59 ≠ 0
  · rw [if_pos h3]; omega
  rw [if_neg h3]
  by_cases h4 : xmi > 59
  · rw [if_pos h4]; omega
  rw [if_neg h4]
  by_cases h5 : xh > 23
  · rw [if_pos h5]; omega
  rw [if_neg h5]
  by_cases h6 : xd = 0
  · rw [if_pos h6]; omega
  rw [if_neg h6]
  by_cases h7 : xd > 31
  · rw [if_pos h7]; omega
  rw [if_neg h7]
  by_cases h8 : xw = 0
  · rw [if_pos h8]; omega
  rw [if_neg h8]
  by_cases h9 : xw > 7
  · rw [if_pos h9]; omega
  rw [if_neg h9]
  by_cases h10 : xmo = 0
  · rw [if_pos h10]; omega
  rw [if_neg h10]
  by_cases h11 : xmo > 12
  · rw [if_pos h11]; omega
  rw [if_neg h11]
  by_cases h12 : xy > 99
  · rw [if_pos h12]; omega
  rw [if_neg h12]
  by_cases h13 : x17 = x18
  · rw [if_pos h13]; omega
  rw [if_neg h13]
  by_cases h14 : p1 ≠ 0
  · rw [if_pos h14]; omega
  rw [if_neg h14]
  by_cases h15 : p2 ≠ 0
  · rw [if_pos h15]; omega
  rw [if_neg h15]
  by_cases h16 : p3 ≠ 0
  · rw [if_pos h16]; omega
  rw [if_neg h16]
  omega

lemma bcd4 (u : Nat) (h : u ≤ 15) :
    u % 2 * 1 + u / 2 % 2 * 2 + u / 4 % 2 * 4 + u / 8 % 2 * 8 = u := by omega

lemma bcd3 (u : Nat) (h : u ≤ 7) :
    u % 2 * 1 + u / 2 % 2 * 2 + u / 4 % 2 * 4 = u := by omega

lemma bcd2 (u : Nat) (h : u ≤ 3) :
    u % 2 * 1 + u / 2 % 2 * 2 = u := by omega

lemma encode_minutes (mi h d w mo y c1 c2 : Nat) (hmi : mi ≤ 59) :
    minutesOf (encodeFrame mi h d w mo y c1 c2) = mi := by
  have e : minutesOf (encodeFrame mi h d w mo y c1 c2) =
      (mi % 10 % 2 * 1 + mi % 10 / 2 % 2 * 2 + mi % 10 / 4 % 2 * 4 + mi % 10 / 8 % 2 * 8 +
       mi / 10 % 2 * 10 + mi / 10 / 2 % 2 * 20 + mi / 10 / 4 % 2 * 40) % 256 := rfl
  have h1 := bcd4 (mi % 10) (by omega)
  have h2 := bcd3 (mi / 10) (by omega)
  omega

lemma encode_hours (mi h d w mo y c1 c2 : Nat) (hh : h ≤ 23) :
    hoursOf (encodeFrame mi h d w mo y c1 c2) = h := by
  have e : hoursOf (encodeFrame mi h d w mo y c1 c2) =
      (h % 10 % 2 * 1 + h % 10 / 2 % 2 * 2 + h % 10 / 4 % 2 * 4 + h % 10 / 8 % 2 * 8 +
       h / 10 % 2 * 10 + h / 10 / 2 % 2 * 20) % 256 := rfl
  have h1 := bcd4 (h % 10) (by omega)
  have h2 := bcd2 (h / 10) (by omega)
  omega

lemma encode_dayM (mi h d w mo y c1 c2 : Nat) (hd : d ≤ 31) :
    dayMOf (encodeFrame mi h d w mo y c1 c2) = d := by
  have e : dayMOf (encodeFrame mi h d w mo y c1 c2) =
      (d % 10 % 2 * 1 + d % 10 / 2 % 2 * 2 + d % 10 / 4 % 2 * 4 + d % 10 / 8 % 2 * 8 +
       d / 10 % 2 * 10 + d / 10 / 2 % 2 * 20) % 256 := rfl
  have h1 := bcd4 (d % 10) (by omega)
  have h2 := bcd2 (d / 10) (by omega)
  omega

lemma encode_dayW (mi h d w mo y c1 c2 : Nat) (hw : w ≤ 7) :
    dayWOf (encodeFrame mi h d w mo y c1 c2) = w := by
  have e : dayWOf (encodeFrame mi h d w mo y c1 c2) =
      (w % 2 * 1 + w / 2 % 2 * 2 + w / 4 % 2 * 4) % 256 := rfl
  have h1 := bcd3 w hw
  omega

lemma encode_month (mi h d w mo y c1 c2 : Nat) (hmo : mo ≤ 12) :
    monthOf (encodeFrame mi h d w mo y c1 c2) = mo := by
  have e : monthOf (encodeFrame mi h d w mo y c1 c2) =
      (mo % 10 % 2 * 1 + mo % 10 / 2 % 2 * 2 + mo % 10 / 4 % 2 * 4 + mo % 10 / 8 % 2 * 8 +
       mo / 10 % 2 * 10) % 256 := rfl
  have h1 := bcd4 (mo % 10) (by omega)
  have h2 : mo / 10 % 2 = mo / 10 := by omega
  omega

lemma encode_year (mi h d w mo y c1 c2 : Nat) (hy : y ≤ 99) :
    yearOf (encodeFrame mi h d w mo y c1 c2) = y := by
  have e : yearOf (encodeFrame mi h d w mo y c1 c2) =
      (y % 10 % 2 * 1 + y % 10 / 2 % 2 * 2 + y % 10 / 4 % 2 * 4 + y % 10 / 8 % 2 * 8 +
       y / 10 % 2 * 10 + y / 10 / 2 % 2 * 20 + y / 10 / 4 % 2 * 40 + y / 10 / 8 % 2 * 80) %
      256 := rfl
  have h1 := bcd4 (y % 10) (by omega)
  have h2 := bcd4 (y / 10) (by omega)
  omega

lemma sumRange_zero (b : Nat → Nat) (lo : Nat) : sumRange b lo 0 = 0 := rfl

lemma sumRange_succ (b : Nat → Nat) (lo n : Nat) :
    sumRange b lo (n + 1) = sumRange b lo n + b (lo + n) := rfl

lemma encode_parity1 (mi h d w mo y c1 c2 : Nat) :
    paritySum (encodeFrame mi h d w mo y c1 c2) 21 28 % 2 = 0 := by
  unfold paritySum
  norm_num [sumRange_succ, sumRange_zero, encodeFrame, minuteParity]
  omega

lemma encode_parity2 (mi h d w mo y c1 c2 : Nat) :
    paritySum (encodeFrame mi h d w mo y c1 c2) 29 35 % 2 = 0 := by
  unfold paritySum
  norm_num [sumRange_succ, sumRange_zero, encodeFrame, hourParity]
  omega

lemma encode_parity3 (mi h d w mo y c1 c2 : Nat) :
    paritySum (encodeFrame mi h d w mo y c1 c2) 36 58 % 2 = 0 := by
  unfold paritySum
  norm_num [sumRange_succ, sumRange_zero, encodeFrame, dateParity]
  omega

set_option maxHeartbeats 2000000 in
lemma verifyStatus_spec (b : Nat → Nat) :
    (verifyStatus b = 0 ↔ (b 0 = 0 ∧ b 20 = 1 ∧ b 59 = 0 ∧ minutesOf b ≤ 59 ∧ hoursOf b ≤ 23 ∧ dayMOf b ≠ 0 ∧ dayMOf b ≤ 31 ∧ dayWOf b ≠ 0 ∧ dayWOf b ≤ 7 ∧ monthOf b ≠ 0 ∧ monthOf b ≤ 12 ∧ yearOf b ≤ 99 ∧ b 17 ≠ b 18 ∧ paritySum b 21 28 % 2 = 0 ∧ paritySum b 29 35 % 2 = 0 ∧ paritySum b 36 58 % 2 = 0)) ∧
    (verifyStatus b = 1 ↔ (b 0 ≠ 0)) ∧
    (verifyStatus b = 2 ↔ (b 0 = 0 ∧ b 20 ≠ 1)) ∧
    (verifyStatus b = 3 ↔ (b 0 = 0 ∧ b 20 = 1 ∧ b 59 ≠ 0)) ∧
    (verifyStatus b = 4 ↔ (b 0 = 0 ∧ b 20 = 1 ∧ b 59 = 0 ∧ 59 < minutesOf b)) ∧
    (verifyStatus b = 5 ↔ (b 0 = 0 ∧ b 20 = 1 ∧ b 59 = 0 ∧ minutesOf b ≤ 59 ∧ 23 < hoursOf b)) ∧
    (verifyStatus b = 6 ↔ (b 0 = 0 ∧ b 20 = 1 ∧ b 59 = 0 ∧ minutesOf b ≤ 59 ∧ hoursOf b ≤ 23 ∧ dayMOf b = 0)) ∧
    (verifyStatus b = 7 ↔ (b 0 = 0 ∧ b 20 = 1 ∧ b 59 = 0 ∧ minutesOf b ≤ 59 ∧ hoursOf b ≤ 23 ∧ dayMOf b ≠ 0 ∧ 31 < dayMOf b)) ∧
    (verifyStatus b = 8 ↔ (b 0 = 0 ∧ b 20 = 1 ∧ b 59 = 0 ∧ minutesOf b ≤ 59 ∧ hoursOf b ≤ 23 ∧ dayMOf b ≠ 0 ∧ dayMOf b ≤ 31 ∧ dayWOf b = 0)) ∧
    (verifyStatus b = 9 ↔ (b 0 = 0 ∧ b 20 = 1 ∧ b 59 = 0 ∧ minutesOf b ≤ 59 ∧ hoursOf b ≤ 23 ∧ dayMOf b ≠ 0 ∧ dayMOf b ≤ 31 ∧ dayWOf b ≠ 0 ∧ 7 < dayWOf b)) ∧
    (verifyStatus b = 10 ↔ (b 0 = 0 ∧ b 20 = 1 ∧ b 59 = 0 ∧ minutesOf b ≤ 59 ∧ hoursOf b ≤ 23 ∧ dayMOf b ≠ 0 ∧ dayMOf b ≤ 31 ∧ dayWOf b ≠ 0 ∧ dayWOf b ≤ 7 ∧ monthOf b = 0)) ∧
    (verifyStatus b = 11 ↔ (b 0 = 0 ∧ b 20 = 1 ∧ b 59 = 0 ∧ minutesOf b ≤ 59 ∧ hoursOf b ≤ 23 ∧ dayMOf b ≠ 0 ∧ dayMOf b ≤ 31 ∧ dayWOf b ≠ 0 ∧ dayWOf b ≤ 7 ∧ monthOf b ≠ 0 ∧ 12 < monthOf b)) ∧
    (verifyStatus b = 12 ↔ (b 0 = 0 ∧ b 20 = 1 ∧ b 59 = 0 ∧ minutesOf b ≤ 59 ∧ hoursOf b ≤ 23 ∧ dayMOf b ≠ 0 ∧ dayMOf b ≤ 31 ∧ dayWOf b ≠ 0 ∧ dayWOf b ≤ 7 ∧ monthOf b ≠ 0 ∧ monthOf b ≤ 12 ∧ 99 < yearOf b)) ∧
    (verifyStatus b = 13 ↔ (b 0 = 0 ∧ b 20 = 1 ∧ b 59 = 0 ∧ minutesOf b ≤ 59 ∧ hoursOf b ≤ 23 ∧ dayMOf b ≠ 0 ∧ dayMOf b ≤ 31 ∧ dayWOf b ≠ 0 ∧ dayWOf b ≤ 7 ∧ monthOf b ≠ 0 ∧ monthOf b ≤ 12 ∧ yearOf b ≤ 99 ∧ b 17 = b 18)) ∧
    (verifyStatus b = 21 ↔ (b 0 = 0 ∧ b 20 = 1 ∧ b 59 = 0 ∧ minutesOf b ≤ 59 ∧ hoursOf b ≤ 23 ∧ dayMOf b ≠ 0 ∧ dayMOf b ≤ 31 ∧ dayWOf b ≠ 0 ∧ dayWOf b ≤ 7 ∧ monthOf b ≠ 0 ∧ monthOf b ≤ 12 ∧ yearOf b ≤ 99 ∧ b 17 ≠ b 18 ∧ paritySum b 21 28 % 2 ≠ 0)) ∧
    (verifyStatus b = 22 ↔ (b 0 = 0 ∧ b 20 = 1 ∧ b 59 = 0 ∧ minutesOf b ≤ 59 ∧ hoursOf b ≤ 23 ∧ dayMOf b ≠ 0 ∧ dayMOf b ≤ 31 ∧ dayWOf b ≠ 0 ∧ dayWOf b ≤ 7 ∧ monthOf b ≠ 0 ∧ monthOf b ≤ 12 ∧ yearOf b ≤ 99 ∧ b 17 ≠ b 18 ∧ paritySum b 21 28 % 2 = 0 ∧ paritySum b 29 35 % 2 ≠ 0)) ∧
    (verifyStatus b = 23 ↔ (b 0 = 0 ∧ b 20 = 1 ∧ b 59 = 0 ∧ minutesOf b ≤ 59 ∧ hoursOf b ≤ 23 ∧ dayMOf b ≠ 0 ∧ dayMOf b ≤ 31 ∧ dayWOf b ≠ 0 ∧ dayWOf b ≤ 7 ∧ monthOf b ≠ 0 ∧ monthOf b ≤ 12 ∧ yearOf b ≤ 99 ∧ b 17 ≠ b 18 ∧ paritySum b 21 28 % 2 = 0 ∧ paritySum b 29 35 % 2 = 0 ∧ paritySum b 36 58 % 2 ≠ 0)) ∧
    (verifyStatus b = 0 ∨ (1 ≤ verifyStatus b ∧ verifyStatus b ≤ 13) ∨ (21 ≤ verifyStatus b ∧ verifyStatus b ≤ 23)) := by
  unfold verifyStatus
  generalize b 0 = x0
  generalize b 20 = x20
  generalize b 59 = x59
  generalize minutesOf b = xmi
  generalize hoursOf b = xh
  generalize dayMOf b = xd
  generalize dayWOf b = xw
  generalize monthOf b = xmo
  generalize yearOf b = xy
  generalize b 17 = x17
  generalize b 18 = x18
  generalize paritySum b 21 28 % 2 = p1
  generalize paritySum b 29 35 % 2 = p2
  generalize paritySum b 36 58 % 2 = p3
  by_cases h1 : x0 ≠ 0
  · rw [if_pos h1]; omega
  rw [if_neg h1]
  by_cases h2 : x20 ≠ 1
  · rw [if_pos h2]; omega
  rw [if_neg h2]
  by_cases h3 : x59 ≠ 0
  · rw [if_pos h3]; omega
  rw [if_neg h3]
  by_cases h4 : xmi > 59
  · rw [if_pos h4]; omega
  rw [if_neg h4]
  by_cases h5 : xh > 23
  · rw [if_pos h5]; omega
  rw [if_neg h5]
  by_cases h6 : xd = 0
  · rw [if_pos h6]; omega
  rw [if_neg h6]
  by_cases h7 : xd > 31
  · rw [if_pos h7]; omega
  rw [if_neg h7]
  by_cases h8 : xw = 0
  · rw [if_pos h8]; omega
  rw [if_neg h8]
  by_cases h9 : xw > 7
  · rw [if_pos h9]; omega
  rw [if_neg h9]
  by_cases h10 : xmo = 0
  · rw [if_pos h10]; omega
  rw [if_neg h10]
  by_cases h11 : xmo > 12
  · rw [if_pos h11]; omega
  rw [if_neg h11]
  by_cases h12 : xy > 99
  · rw [if_pos h12]; omega
  rw [if_neg h12]
  by_cases h13 : x17 = x18
  · rw [if_pos h13]; omega
  rw [if_neg h13]
  by_cases h14 : p1 ≠ 0
  · rw [if_pos h14]; omega
  rw [if_neg h14]
  by_cases h15 : p2 ≠ 0
  · rw [if_pos h15]; omega
  rw [if_neg h15]
  by_cases h16 : p3 ≠ 0
  · rw [if_pos h16]; omega
  rw [if_neg h16]
  omega

lemma getTime_sync_full_eq (s : DcfState) (h1 : s.idx = 59) (h2 : s.dcfBit = DCF_BIT_SYNC) :
    getTime s = (verifyStatus (updBits s.bits 59 DCF_BIT_LOW),
      { s with bits := updBits s.bits 59 DCF_BIT_LOW, dcfBit := DCF_BIT_NONE,
               lastBit := DCF_BIT_SYNC, currentTm := verifyTm (updBits s.bits 59 DCF_BIT_LOW),
               idx := 0 }) := by
  unfold getTime
  rw [h1, h2]
  rw [if_neg (by omega), if_pos rfl, if_pos rfl]
  rfl

lemma dcfIsr_secondary_flagged (s : DcfState) (ts pin : Nat)
    (h1 : pin ≠ s.startEdge) (h2 : s.rxFlag = 1) :
    dcfIsr s ts pin = { s with lastIrqTrigger := pin } := by
  unfold dcfIsr
  rw [if_neg h1, if_pos h2]

lemma runIsr_cons (s : DcfState) (e : Nat × Nat) (es : List (Nat × Nat)) :
    runIsr s (e :: es) = runIsr (dcfIsr s e.1 e.2) es := rfl

lemma verifyStatus_sanity_skip (b : Nat → Nat) (hs : sanityOk b) :
    verifyStatus b =
      (if paritySum b 21 28 % 2 ≠ 0 then 21
       else if paritySum b 29 35 % 2 ≠ 0 then 22
       else if paritySum b 36 58 % 2 ≠ 0 then 23
       else 0) := by
  obtain ⟨s1, s2, s3, s4, s5, s6, s7, s8, s9, s10, s11, s12, s13⟩ := hs
  unfold verifyStatus
  rw [if_neg (not_not_intro s1), if_neg (not_not_intro s2), if_neg (not_not_intro s3),
      if_neg (not_lt.mpr s4), if_neg (not_lt.mpr s5), if_neg s6, if_neg (not_lt.mpr s7),
      if_neg s8, if_neg (not_lt.mpr s9), if_neg s10, if_neg (not_lt.mpr s11),
      if_neg (not_lt.mpr s12), if_neg s13]

lemma verifyStatus_parity1_fail (b : Nat → Nat) (hs : sanityOk b)
    (hp : paritySum b 21 28 % 2 ≠ 0) : verifyStatus b = 21 := by
  rw [verifyStatus_sanity_skip b hs, if_pos hp]

lemma verifyStatus_parity2_fail (b : Nat → Nat) (hs : sanityOk b)
    (hq1 : paritySum b 21 28 % 2 = 0) (hp : paritySum b 29 35 % 2 ≠ 0) :
    verifyStatus b = 22 := by
  rw [verifyStatus_sanity_skip b hs, if_neg (not_not_intro hq1), if_pos hp]

lemma verifyStatus_parity3_fail (b : Nat → Nat) (hs : sanityOk b)
    (hq1 : paritySum b 21 28 % 2 = 0) (hq2 : paritySum b 29 35 % 2 = 0)
    (hp : paritySum b 36 58 % 2 ≠ 0) : verifyStatus b = 23 := by
  rw [verifyStatus_sanity_skip b hs, if_neg (not_not_intro hq1),
      if_neg (not_not_intro hq2), if_pos hp]


/-- C1 counterexample: a completed frame whose first sanity check fails
(bit 0 is 1, status 1) still overwrites `DCF.currentTm`: the output differs
from the prior value `tmZero` (the minute field becomes 85), so the fields
are not left unchanged on a non-zero verifier status. -/
theorem dcf_verify_overwrites_tm_cex :
    (verify badFrame tmZero).1 ≠ 0 ∧ ¬((verify badFrame tmZero).2 = tmZero) := by
  decide

/-- C1 (amended): when `getTime` completes a frame (index 59, `Sync` in the
channel) and the verifier rejects it with a non-zero status, every field of
`DCF.currentTm` is nevertheless overwritten with the values decoded from the
rejected frame — the fields are not preserved; validity is signalled solely
by the status code, matching the header comment that `currentTm` contains
invalid data on statuses 1..13 and 21..23. -/
theorem dcf_verify_overwrites_tm (s : DcfState) (h1 : s.idx = 59)
    (h2 : s.dcfBit = DCF_BIT_SYNC) (_h3 : (getTime s).1 ≠ 0) :
    (getTime s).2.currentTm = verifyTm (updBits s.bits 59 DCF_BIT_LOW) := by
  rw [getTime_sync_full_eq s h1 h2]

/-- C1 witness: the amended theorem at the concrete rejected frame. -/
theorem dcf_verify_overwrites_tm_wit :
    (getTime exBadState).2.currentTm = verifyTm (updBits exBadState.bits 59 DCF_BIT_LOW) :=
  dcf_verify_overwrites_tm exBadState rfl rfl (by decide)

/-- C2: encoding any in-range calendar time into a 60-bit frame with the
standard BCD weights, marker bits 0/1/0 at positions 0/20/59 and even
parity bits 28, 35 and 58, and running the field verifier on that frame
yields status 0 and an output structure equal to the original time under
the implemented conventions (`tm_sec = 0`, `tm_mon = month - 1`,
`tm_wday = dayOfWeek mod 7`, `tm_year = year + 100`, `tm_isdst = CEST`). -/
theorem dcf_roundtrip (mi h d w mo y cest cet : Nat)
    (hmi : mi ≤ 59) (hh : h ≤ 23) (hd1 : 1 ≤ d) (hd2 : d ≤ 31)
    (hw1 : 1 ≤ w) (hw2 : w ≤ 7) (hmo1 : 1 ≤ mo) (hmo2 : mo ≤ 12)
    (hy : y ≤ 99) (hc1 : cest ≤ 1) (hc2 : cet ≤ 1) (hcc : cest ≠ cet) :
    verifyStatus (encodeFrame mi h d w mo y cest cet) = 0 ∧
    verifyTm (encodeFrame mi h d w mo y cest cet) =
      ⟨0, (mi : Int), (h : Int), (d : Int), ((w % 7 : Nat) : Int),
       (mo : Int) - 1, (y : Int) + 100, (cest : Int)⟩ := by
  have e1 := encode_minutes mi h d w mo y cest cet hmi
  have e2 := encode_hours mi h d w mo y cest cet hh
  have e3 := encode_dayM mi h d w mo y cest cet hd2
  have e4 := encode_dayW mi h d w mo y cest cet hw2
  have e5 := encode_month mi h d w mo y cest cet hmo2
  have e6 := encode_year mi h d w mo y cest cet hy
  constructor
  · rw [verifyStatus_eq_zero_iff]
    refine ⟨?_, ?_, ?_, ?_⟩
    · unfold sanityOk
      exact ⟨rfl, rfl, rfl, by omega, by omega, by omega, by omega, by omega, by omega,
             by omega, by omega, by omega, hcc⟩
    · exact encode_parity1 mi h d w mo y cest cet
    · exact encode_parity2 mi h d w mo y cest cet
    · exact encode_parity3 mi h d w mo y cest cet
  · unfold verifyTm
    rw [e1, e2, e3, e4, e5, e6]
    rfl

/-- C2 witness: round trip of 13:45 on Tuesday 2025-10-11. -/
theorem dcf_roundtrip_wit :
    verifyStatus (encodeFrame 45 13 11 2 10 25 1 0) = 0 ∧
    verifyTm (encodeFrame 45 13 11 2 10 25 1 0) = ⟨0, 45, 13, 11, 2, 9, 125, 1⟩ :=
  dcf_roundtrip 45 13 11 2 10 25 1 0 (by decide) (by decide) (by decide) (by decide)
    (by decide) (by decide) (by decide) (by decide) (by decide) (by decide) (by decide)
    (by decide)

/-- C3: the verifier checks run in the fixed order bit 0, bit 20, bit 59,
minute, hour, day-of-month (0 then > 31), day-of-week (0 then > 7), month
(0 then > 12), year, CEST/CET flags, then the three parity groups; the
first failing check determines the status, the statuses are pairwise
distinct and non-zero (range failures 1..13, parity failures 21..23), and
0 is returned exactly when every check passes. -/
theorem dcf_verify_order (b : Nat → Nat) :
    (verifyStatus b = 0 ↔ (b 0 = 0 ∧ b 20 = 1 ∧ b 59 = 0 ∧ minutesOf b ≤ 59 ∧ hoursOf b ≤ 23 ∧ dayMOf b ≠ 0 ∧ dayMOf b ≤ 31 ∧ dayWOf b ≠ 0 ∧ dayWOf b ≤ 7 ∧ monthOf b ≠ 0 ∧ monthOf b ≤ 12 ∧ yearOf b ≤ 99 ∧ b 17 ≠ b 18 ∧ paritySum b 21 28 % 2 = 0 ∧ paritySum b 29 35 % 2 = 0 ∧ paritySum b 36 58 % 2 = 0)) ∧
    (verifyStatus b = 1 ↔ (b 0 ≠ 0)) ∧
    (verifyStatus b = 2 ↔ (b 0 = 0 ∧ b 20 ≠ 1)) ∧
    (verifyStatus b = 3 ↔ (b 0 = 0 ∧ b 20 = 1 ∧ b 59 ≠ 0)) ∧
    (verifyStatus b = 4 ↔ (b 0 = 0 ∧ b 20 = 1 ∧ b 59 = 0 ∧ 59 < minutesOf b)) ∧
    (verifyStatus b = 5 ↔ (b 0 = 0 ∧ b 20 = 1 ∧ b 59 = 0 ∧ minutesOf b ≤ 59 ∧ 23 < hoursOf b)) ∧
    (verifyStatus b = 6 ↔ (b 0 = 0 ∧ b 20 = 1 ∧ b 59 = 0 ∧ minutesOf b ≤ 59 ∧ hoursOf b ≤ 23 ∧ dayMOf b = 0)) ∧
    (verifyStatus b = 7 ↔ (b 0 = 0 ∧ b 20 = 1 ∧ b 59 = 0 ∧ minutesOf b ≤ 59 ∧ hoursOf b ≤ 23 ∧ dayMOf b ≠ 0 ∧ 31 < dayMOf b)) ∧
    (verifyStatus b = 8 ↔ (b 0 = 0 ∧ b 20 = 1 ∧ b 59 = 0 ∧ minutesOf b ≤ 59 ∧ hoursOf b ≤ 23 ∧ dayMOf b ≠ 0 ∧ dayMOf b ≤ 31 ∧ dayWOf b = 0)) ∧
    (verifyStatus b = 9 ↔ (b 0 = 0 ∧ b 20 = 1 ∧ b 59 = 0 ∧ minutesOf b ≤ 59 ∧ hoursOf b ≤ 23 ∧ dayMOf b ≠ 0 ∧ dayMOf b ≤ 31 ∧ dayWOf b ≠ 0 ∧ 7 < dayWOf b)) ∧
    (verifyStatus b = 10 ↔ (b 0 = 0 ∧ b 20 = 1 ∧ b 59 = 0 ∧ minutesOf b ≤ 59 ∧ hoursOf b ≤ 23 ∧ dayMOf b ≠ 0 ∧ dayMOf b ≤ 31 ∧ dayWOf b ≠ 0 ∧ dayWOf b ≤ 7 ∧ monthOf b = 0)) ∧
    (verifyStatus b = 11 ↔ (b 0 = 0 ∧ b 20 = 1 ∧ b 59 = 0 ∧ minutesOf b ≤ 59 ∧ hoursOf b ≤ 23 ∧ dayMOf b ≠ 0 ∧ dayMOf b ≤ 31 ∧ dayWOf b ≠ 0 ∧ dayWOf b ≤ 7 ∧ monthOf b ≠ 0 ∧ 12 < monthOf b)) ∧
    (verifyStatus b = 12 ↔ (b 0 = 0 ∧ b 20 = 1 ∧ b 59 = 0 ∧ minutesOf b ≤ 59 ∧ hoursOf b ≤ 23 ∧ dayMOf b ≠ 0 ∧ dayMOf b ≤ 31 ∧ dayWOf b ≠ 0 ∧ dayWOf b ≤ 7 ∧ monthOf b ≠ 0 ∧ monthOf b ≤ 12 ∧ 99 < yearOf b)) ∧
    (verifyStatus b = 13 ↔ (b 0 = 0 ∧ b 20 = 1 ∧ b 59 = 0 ∧ minutesOf b ≤ 59 ∧ hoursOf b ≤ 23 ∧ dayMOf b ≠ 0 ∧ dayMOf b ≤ 31 ∧ dayWOf b ≠ 0 ∧ dayWOf b ≤ 7 ∧ monthOf b ≠ 0 ∧ monthOf b ≤ 12 ∧ yearOf b ≤ 99 ∧ b 17 = b 18)) ∧
    (verifyStatus b = 21 ↔ (b 0 = 0 ∧ b 20 = 1 ∧ b 59 = 0 ∧ minutesOf b ≤ 59 ∧ hoursOf b ≤ 23 ∧ dayMOf b ≠ 0 ∧ dayMOf b ≤ 31 ∧ dayWOf b ≠ 0 ∧ dayWOf b ≤ 7 ∧ monthOf b ≠ 0 ∧ monthOf b ≤ 12 ∧ yearOf b ≤ 99 ∧ b 17 ≠ b 18 ∧ paritySum b 21 28 % 2 ≠ 0)) ∧
    (verifyStatus b = 22 ↔ (b 0 = 0 ∧ b 20 = 1 ∧ b 59 = 0 ∧ minutesOf b ≤ 59 ∧ hoursOf b ≤ 23 ∧ dayMOf b ≠ 0 ∧ dayMOf b ≤ 31 ∧ dayWOf b ≠ 0 ∧ dayWOf b ≤ 7 ∧ monthOf b ≠ 0 ∧ monthOf b ≤ 12 ∧ yearOf b ≤ 99 ∧ b 17 ≠ b 18 ∧ paritySum b 21 28 % 2 = 0 ∧ paritySum b 29 35 % 2 ≠ 0)) ∧
    (verifyStatus b = 23 ↔ (b 0 = 0 ∧ b 20 = 1 ∧ b 59 = 0 ∧ minutesOf b ≤ 59 ∧ hoursOf b ≤ 23 ∧ dayMOf b ≠ 0 ∧ dayMOf b ≤ 31 ∧ dayWOf b ≠ 0 ∧ dayWOf b ≤ 7 ∧ monthOf b ≠ 0 ∧ monthOf b ≤ 12 ∧ yearOf b ≤ 99 ∧ b 17 ≠ b 18 ∧ paritySum b 21 28 % 2 = 0 ∧ paritySum b 29 35 % 2 = 0 ∧ paritySum b 36 58 % 2 ≠ 0)) ∧
    (verifyStatus b = 0 ∨ (1 ≤ verifyStatus b ∧ verifyStatus b ≤ 13) ∨ (21 ≤ verifyStatus b ∧ verifyStatus b ≤ 23)) :=
  verifyStatus_spec b

/-- C4 counterexample: at `delta = 1950` ms exactly the code discards the
start edge (the comparison `delta > 1950` is strict): no `Sync` is emitted
and the timestamp is not updated, contradicting the claimed closed interval
`[1950, 2050]` (and likewise `delta = 950` would fall out of the claimed
`[950, 1050]` acceptance range). -/
theorem dcf_isr_start_bounds_cex :
    (dcfIsr exNoise 1950 0).dcfBit ≠ DCF_BIT_SYNC ∧
    (dcfIsr exNoise 1950 0).startEdgeTs = exNoise.startEdgeTs := by
  decide

/-- C4 (amended): classification of a start edge by `dcfIsr` as a function
of `delta = now - lastStartEdgeTimestamp`, with the strict bounds the code
uses: `delta > 2050` discard but update the timestamp (and clear the
symbol-assigned flag); `1950 < delta ≤ 2050` emit `Sync` (timestamp
updated, flag cleared); `1050 < delta ≤ 1950` discard with no update;
`950 < delta ≤ 1050` accept as a fresh second boundary (no symbol emitted,
flag cleared, timestamp updated); `delta ≤ 950` discard entirely. -/
theorem dcf_isr_start_bounds (s : DcfState) (ts pin : Nat) (hpin : pin = s.startEdge) :
    (u32sub ts s.startEdgeTs > 2050 →
      dcfIsr s ts pin = { s with lastIrqTrigger := pin, startEdgeTs := ts, rxFlag := 0 }) ∧
    (u32sub ts s.startEdgeTs > 1950 → u32sub ts s.startEdgeTs ≤ 2050 →
      dcfIsr s ts pin =
        { s with lastIrqTrigger := pin, dcfBit := DCF_BIT_SYNC, startEdgeTs := ts,
                 rxFlag := 0 }) ∧
    (u32sub ts s.startEdgeTs > 1050 → u32sub ts s.startEdgeTs ≤ 1950 →
      dcfIsr s ts pin = { s with lastIrqTrigger := pin }) ∧
    (u32sub ts s.startEdgeTs > 950 → u32sub ts s.startEdgeTs ≤ 1050 →
      dcfIsr s ts pin = { s with lastIrqTrigger := pin, startEdgeTs := ts, rxFlag := 0 }) ∧
    (u32sub ts s.startEdgeTs ≤ 950 →
      dcfIsr s ts pin = { s with lastIrqTrigger := pin }) := by
  subst hpin
  unfold dcfIsr
  rw [if_pos rfl]
  refine ⟨fun hd => ?_, fun ha hb => ?_, fun ha hb => ?_, fun ha hb => ?_, fun hd => ?_⟩
  · rw [if_pos hd]
  · rw [if_neg (not_lt.mpr hb), if_pos ha]
  · rw [if_neg (not_lt.mpr (hb.trans (show (1950 : Nat) ≤ 2050 by norm_num))),
        if_neg (not_lt.mpr hb), if_pos ha]
  · rw [if_neg (not_lt.mpr (hb.trans (show (1050 : Nat) ≤ 2050 by norm_num))),
        if_neg (not_lt.mpr (hb.trans (show (1050 : Nat) ≤ 1950 by norm_num))),
        if_neg (not_lt.mpr hb), if_pos ha]
  · rw [if_neg (not_lt.mpr (hd.trans (show (950 : Nat) ≤ 2050 by norm_num))),
        if_neg (not_lt.mpr (hd.trans (show (950 : Nat) ≤ 1950 by norm_num))),
        if_neg (not_lt.mpr (hd.trans (show (950 : Nat) ≤ 1050 by norm_num))),
        if_neg (not_lt.mpr hd)]

/-- C4 witness: the amended classification at a concrete start edge with
`delta = 1000` ms. -/
theorem dcf_isr_start_bounds_wit :
    (u32sub 1000 exNoise.startEdgeTs > 2050 →
      dcfIsr exNoise 1000 0 = { exNoise with lastIrqTrigger := 0, startEdgeTs := 1000,
                                             rxFlag := 0 }) ∧
    (u32sub 1000 exNoise.startEdgeTs > 1950 → u32sub 1000 exNoise.startEdgeTs ≤ 2050 →
      dcfIsr exNoise 1000 0 =
        { exNoise with lastIrqTrigger := 0, dcfBit := DCF_BIT_SYNC, startEdgeTs := 1000,
                       rxFlag := 0 }) ∧
    (u32sub 1000 exNoise.startEdgeTs > 1050 → u32sub 1000 exNoise.startEdgeTs ≤ 1950 →
      dcfIsr exNoise 1000 0 = { exNoise with lastIrqTrigger := 0 }) ∧
    (u32sub 1000 exNoise.startEdgeTs > 950 → u32sub 1000 exNoise.startEdgeTs ≤ 1050 →
      dcfIsr exNoise 1000 0 = { exNoise with lastIrqTrigger := 0, startEdgeTs := 1000,
                                             rxFlag := 0 }) ∧
    (u32sub 1000 exNoise.startEdgeTs ≤ 950 →
      dcfIsr exNoise 1000 0 = { exNoise with lastIrqTrigger := 0 }) :=
  dcf_isr_start_bounds exNoise 1000 0 rfl

/-- C5 counterexample: with the channel empty (`dcfBit = None`) but the
frame index at 60, `getTime` returns 31 and resets the index, not 41 with
no state change, because the overflow check precedes the channel check. -/
theorem dcf_getTime_empty_cex :
    (getTime exOverflow).1 ≠ 41 ∧ (getTime exOverflow).2.idx ≠ exOverflow.idx := by
  decide

/-- C5 (amended): with the Bit Channel empty (`dcfBit = None`), `getTime`
returns 41 with no state change when the frame index is below 60; when the
index has reached 60 the overflow check fires first, so `getTime` returns
31 and resets the index to 0 even though the channel is empty. -/
theorem dcf_getTime_empty (s : DcfState) (h1 : s.dcfBit = DCF_BIT_NONE) :
    (s.idx < 60 → getTime s = (41, s)) ∧
    (60 ≤ s.idx → getTime s = (31, { s with idx := 0 })) := by
  constructor
  · intro h2
    unfold getTime
    rw [h1]
    rw [if_neg (by omega), if_neg (by decide), if_neg (by decide)]
  · intro h2
    unfold getTime
    rw [if_pos h2]

/-- C5 witness: the amended statement at the freshly initialized state. -/
theorem dcf_getTime_empty_wit :
    (initState.idx < 60 → getTime initState = (41, initState)) ∧
    (60 ≤ initState.idx → getTime initState = (31, { initState with idx := 0 })) :=
  dcf_getTime_empty initState rfl

/-- C6: when `getTime` reads a `Sync` symbol with the frame index at 59 it
stores `Zero` at slot 59, runs the field verifier on the completed frame,
clears the channel to `None`, resets the index to 0 and returns exactly the
verifier status (the verifier also repopulating `currentTm`). -/
theorem dcf_getTime_sync_full (s : DcfState) (h1 : s.idx = 59)
    (h2 : s.dcfBit = DCF_BIT_SYNC) :
    (getTime s).1 = verifyStatus (updBits s.bits 59 DCF_BIT_LOW) ∧
    (getTime s).2.bits = updBits s.bits 59 DCF_BIT_LOW ∧
    (getTime s).2.dcfBit = DCF_BIT_NONE ∧
    (getTime s).2.idx = 0 ∧
    (getTime s).2.currentTm = verifyTm (updBits s.bits 59 DCF_BIT_LOW) := by
  rw [getTime_sync_full_eq s h1 h2]
  exact ⟨rfl, rfl, rfl, rfl, rfl⟩

/-- C6 witness: the sync-at-59 behaviour at a concrete state. -/
theorem dcf_getTime_sync_full_wit :
    (getTime exSync59).1 = verifyStatus (updBits exSync59.bits 59 DCF_BIT_LOW) ∧
    (getTime exSync59).2.bits = updBits exSync59.bits 59 DCF_BIT_LOW ∧
    (getTime exSync59).2.dcfBit = DCF_BIT_NONE ∧
    (getTime exSync59).2.idx = 0 ∧
    (getTime exSync59).2.currentTm = verifyTm (updBits exSync59.bits 59 DCF_BIT_LOW) :=
  dcf_getTime_sync_full exSync59 rfl rfl

/-- C7 counterexample: the frame encoding minute 59 is accepted with
status 0, but flipping bit 22 (inside the parity-covered range 21-28)
changes the decoded minute to 61, so the verifier returns the range-failure
status 4 — not the parity-failure status 21 the claim promises. -/
theorem dcf_parity_reject_cex :
    verifyStatus (encodeFrame 59 13 11 2 10 25 1 0) = 0 ∧
    verifyStatus (flipBit (encodeFrame 59 13 11 2 10 25 1 0) 22) ≠ 21 ∧
    verifyStatus (flipBit (encodeFrame 59 13 11 2 10 25 1 0) 22) = 4 := by
  decide

/-- C7 (amended): flipping any single bit of an accepted 0/1-valued frame
inside a parity-covered range (bits 21-58) without correcting the parity
bit never yields status 0; and whenever the thirteen sanity checks still
pass on the flipped frame, the result is exactly the parity-failure status
of the group containing the flipped bit (21, 22 or 23). -/
theorem dcf_parity_reject (b : Nat → Nat) (i : Nat)
    (hb : ∀ j, j ≤ 59 → b j ≤ 1) (h0 : verifyStatus b = 0)
    (hi1 : 21 ≤ i) (hi2 : i ≤ 58) :
    verifyStatus (flipBit b i) ≠ 0 ∧
    (sanityOk (flipBit b i) → verifyStatus (flipBit b i) = parityCode i) := by
  obtain ⟨hsan, hp1, hp2, hp3⟩ := (verifyStatus_eq_zero_iff b).mp h0
  by_cases hg1 : i ≤ 28
  · have hf1 := paritySum_flip_parity b i 21 28 hb hi1 hg1 (by omega)
    constructor
    · intro hc
      obtain ⟨-, hq1, -, -⟩ := (verifyStatus_eq_zero_iff _).mp hc
      omega
    · intro hs
      have h21 : verifyStatus (flipBit b i) = 21 :=
        verifyStatus_parity1_fail _ hs (by omega)
      unfold parityCode
      rw [if_pos hg1]
      exact h21
  · by_cases hg2 : i ≤ 35
    · have hf1 := paritySum_flip_out b i 21 28 (by omega)
      have hf2 := paritySum_flip_parity b i 29 35 hb (by omega) hg2 (by omega)
      constructor
      · intro hc
        obtain ⟨-, -, hq2, -⟩ := (verifyStatus_eq_zero_iff _).mp hc
        omega
      · intro hs
        have h22 : verifyStatus (flipBit b i) = 22 :=
          verifyStatus_parity2_fail _ hs (by omega) (by omega)
        unfold parityCode
        rw [if_neg hg1, if_pos hg2]
        exact h22
    · have hf1 := paritySum_flip_out b i 21 28 (by omega)
      have hf2 := paritySum_flip_out b i 29 35 (by omega)
      have hf3 := paritySum_flip_parity b i 36 58 hb (by omega) hi2 (by omega)
      constructor
      · intro hc
        obtain ⟨-, -, -, hq3⟩ := (verifyStatus_eq_zero_iff _).mp hc
        omega
      · intro hs
        have h23 : verifyStatus (flipBit b i) = 23 :=
          verifyStatus_parity3_fail _ hs (by omega) (by omega) (by omega)
        unfold parityCode
        rw [if_neg hg1, if_neg hg2]
        exact h23

/-- C7 witness: flipping bit 36 of an accepted frame trips the date-group
parity check (status 23). -/
theorem dcf_parity_reject_wit :
    verifyStatus (flipBit (encodeFrame 30 12 15 3 6 24 0 1) 36) ≠ 0 ∧
    (sanityOk (flipBit (encodeFrame 30 12 15 3 6 24 0 1) 36) →
      verifyStatus (flipBit (encodeFrame 30 12 15 3 6 24 0 1) 36) = parityCode 36) :=
  dcf_parity_reject (encodeFrame 30 12 15 3 6 24 0 1) 36 (by decide) (by decide)
    (by decide) (by decide)

/-- C8: once a symbol has been assigned for the current second
(`rxFlag = 1`), any burst of secondary edges (pin level different from the
start polarity) is discarded by the interrupt handler: the classified
symbol `dcfBit`, the flag and the start-edge timestamp are all unchanged
(only the diagnostic `lastIrqTrigger` is refreshed). -/
theorem dcf_isr_noise_idempotent (s : DcfState) (es : List (Nat × Nat))
    (hflag : s.rxFlag = 1) (hsec : ∀ e ∈ es, e.2 ≠ s.startEdge) :
    (runIsr s es).dcfBit = s.dcfBit ∧ (runIsr s es).rxFlag = 1 ∧
    (runIsr s es).startEdgeTs = s.startEdgeTs := by
  induction es generalizing s with
  | nil => exact ⟨rfl, hflag, rfl⟩
  | cons e es ih =>
    rw [runIsr_cons]
    rw [dcfIsr_secondary_flagged s e.1 e.2 (hsec e (List.mem_cons_self e es)) hflag]
    exact ih { s with lastIrqTrigger := e.2 } hflag
      (fun e' he' => hsec e' (List.mem_cons_of_mem e he'))

/-- C8 witness: a burst of three secondary edges after a classified `Zero`
leaves the symbol untouched. -/
theorem dcf_isr_noise_idempotent_wit :
    (runIsr exNoise [(1100, 1), (1150, 1), (1200, 1)]).dcfBit = exNoise.dcfBit ∧
    (runIsr exNoise [(1100, 1), (1150, 1), (1200, 1)]).rxFlag = 1 ∧
    (runIsr exNoise [(1100, 1), (1150, 1), (1200, 1)]).startEdgeTs = exNoise.startEdgeTs :=
  dcf_isr_noise_idempotent exNoise [(1100, 1), (1150, 1), (1200, 1)] rfl (by decide)

/-- C9: one `getTime` step always leaves the frame index at most 60, and
never changes any entry of the bits array at an index of 60 or beyond —
every store lands at an index of at most 59, because the overflow check is
evaluated before any store. -/
theorem dcf_getTime_index_safety (s : DcfState) :
    (getTime s).2.idx ≤ 60 ∧ ∀ j, 60 ≤ j → (getTime s).2.bits j = s.bits j := by
  unfold getTime
  by_cases h1 : 60 ≤ s.idx
  · rw [if_pos h1]
    refine ⟨?_, fun j hj => rfl⟩
    show (0 : Nat) ≤ 60
    omega
  rw [if_neg h1]
  by_cases h2 : s.dcfBit = DCF_BIT_SYNC
  · rw [if_pos h2]
    by_cases h3 : s.idx = 59
    · rw [if_pos h3]
      refine ⟨?_, fun j hj => ?_⟩
      · show (0 : Nat) ≤ 60
        omega
      · show updBits s.bits 59 DCF_BIT_LOW j = s.bits j
        unfold updBits
        rw [if_neg (by omega)]
    · rw [if_neg h3]
      refine ⟨?_, fun j hj => rfl⟩
      show (0 : Nat) ≤ 60
      omega
  rw [if_neg h2]
  by_cases h4 : s.dcfBit = DCF_BIT_HIGH ∨ s.dcfBit = DCF_BIT_LOW
  · rw [if_pos h4]
    refine ⟨?_, fun j hj => ?_⟩
    · show s.idx + 1 ≤ 60
      omega
    · show updBits s.bits s.idx s.dcfBit j = s.bits j
      unfold updBits
      rw [if_neg (by omega)]
  · rw [if_neg h4]
    refine ⟨?_, fun j hj => rfl⟩
    show s.idx ≤ 60
    omega

/-- C10: `getTime` never returns the verifier status 3 (final bit not
zero), because it always writes `Zero` into slot 59 immediately before
invoking the verifier. -/
theorem dcf_getTime_never_status3 (s : DcfState) : (getTime s).1 ≠ 3 := by
  unfold getTime
  by_cases h1 : 60 ≤ s.idx
  · rw [if_pos h1]
    show (31 : Nat) ≠ 3
    decide
  rw [if_neg h1]
  by_cases h2 : s.dcfBit = DCF_BIT_SYNC
  · rw [if_pos h2]
    by_cases h3 : s.idx = 59
    · rw [if_pos h3]
      show verifyStatus (updBits s.bits 59 DCF_BIT_LOW) ≠ 3
      intro hc
      have hout := ((verifyStatus_spec (updBits s.bits 59 DCF_BIT_LOW)).2.2.2.1).mp hc
      exact hout.2.2 rfl
    · rw [if_neg h3]
      show (32 : Nat) ≠ 3
      decide
  rw [if_neg h2]
  by_cases h4 : s.dcfBit = DCF_BIT_HIGH ∨ s.dcfBit = DCF_BIT_LOW
  · rw [if_pos h4]
    show (33 : Nat) ≠ 3
    decide
  · rw [if_neg h4]
    show (41 : Nat) ≠ 3
    decide


end Dcf
